import Mathlib

/-!
Shallow embedding of the shift-resolution engine of the `workshift_sensor`
repository.

The local timeline is modelled in minutes: a calendar date is an integer day
number, and an instant is an integer count of minutes on the local wall clock
(so the date of an instant `t` is `t.fdiv 1440`, and `datetime.combine(day,
time)` is `day * 1440 + minutes-of-time`).

Embedded code:
* `custom_components/workshift_sensor/schedule.py`, class `WorkshiftSchedule`
  (`_is_manual_day_off`, `_workday_allowed`, `_get_schedule_code`, `get_shift`,
  `shift_covering`, `next_shift_after`, `_parse_manual_days_off`).  The wall
  clock read `dt_util.now(self.tz).date()` performed by `_workday_allowed` is
  made an explicit parameter `today`, and the `hass.states` registry is a
  snapshot function from entity ids to optional state strings.
* `custom_components/workshift_sensor/const.py`, the second resolver variant
  (`_index_for_date`, `get_shift_code`, `get_shift_info`); its unhandled
  Python exceptions are modelled with `Except`.
-/

namespace WorkshiftSensor

/-- Number of minutes in a calendar day of the local timeline. -/
def minutesPerDay : Int := 1440

/-- `ShiftInstance` dataclass of `schedule.py`: a computed shift for a date. -/
structure ShiftInstance where
  code : Nat
  start : Int
  stop : Int
  rotationIndex : Option Nat
deriving DecidableEq

/-- Snapshot of the `hass.states` registry: for an entity id, the state string
of the entity (`none` when `hass.states.get` returns `None`). -/
def StatesSnapshot := String → Option String

/-- The configuration fields of `WorkshiftSchedule.__init__` (`schedule.py`),
after parsing: duration in hours, pattern characters, start times in minutes
after local midnight, anchor day number, parsed manual day-off ranges, and the
workday-override settings (`_workday_tomorrow` already contains the
construction-time fallback `workday_sensor_tomorrow or workday_sensor`). -/
structure WorkshiftConfig where
  shiftDuration : Nat
  pattern : List Char
  startTimes : List Nat
  baseDate : Int
  manualDaysOff : List (Int × Int)
  useWorkdaySensor : Bool
  workdayToday : Option String
  workdayTomorrow : Option String

/-- Python `int(c)` on a single character: the digit value, or `none` where the
Python call raises `ValueError`. -/
def charDigit? (c : Char) : Option Nat :=
  if c.isDigit then some (c.toNat - 48) else none

/-- Python `str.lower()` (the state strings compared by the resolver are
ASCII). -/
def str_lower (s : String) : String := String.mk (s.data.map Char.toLower)

/-- `WorkshiftSchedule._is_manual_day_off`:
`any(start <= day <= end for start, end in self._manual_days_off)`. -/
def is_manual_day_off (cfg : WorkshiftConfig) (day : Int) : Bool :=
  cfg.manualDaysOff.any (fun r => decide (r.1 ≤ day) && decide (day ≤ r.2))

/-- `WorkshiftSchedule._workday_allowed` (`schedule.py`): `today` is the value
of `dt_util.now(self.tz).date()` at the moment of the call. -/
def workday_allowed (cfg : WorkshiftConfig) (states : StatesSnapshot)
    (today day : Int) : Bool :=
  if !cfg.useWorkdaySensor then true
  else
    let entityId : Option String :=
      if day = today then cfg.workdayToday
      else if day = today + 1 then cfg.workdayTomorrow
      else none
    match entityId with
    | none => true
    | some eid =>
      if eid = "" then true
      else
        match states eid with
        | none => true
        | some st => str_lower st != "off"

/-- `WorkshiftSchedule._get_schedule_code` (`schedule.py`).  The list lookup
`self._pattern[idx]` is written `getD idx ' '`; the default is never taken
because `idx < len(pattern)` in the reachable branch.  Python's
`int(self._pattern[idx])` raises `ValueError` exactly on a non-digit
character, and the handler returns `(0, None)`: this is the `isDigit = false`
branch; on a digit, `int` yields the digit value `toNat - 48`. -/
def get_schedule_code (cfg : WorkshiftConfig) (states : StatesSnapshot)
    (today day : Int) : Nat × Option Nat :=
  if is_manual_day_off cfg day then (0, none)
  else if cfg.pattern.isEmpty then (0, none)
  else
    let diff := day - cfg.baseDate
    if diff < 0 then (0, none)
    else
      let idx := diff.toNat % cfg.pattern.length
      let c := cfg.pattern.getD idx ' '
      if c.isDigit = false then (0, none)
      else
        let code := c.toNat - 48
        if !workday_allowed cfg states today day then (0, some idx)
        else (code, some idx)

/-- `WorkshiftSchedule.get_shift` (`schedule.py`): the out-of-range check is
`idx < 0 or idx >= len(self._start_times)` (`idx = code - 1` is nonnegative
since `code ≠ 0`); `self._start_times[idx]` is then an in-range lookup,
written `getD idx 0`. -/
def get_shift (cfg : WorkshiftConfig) (states : StatesSnapshot)
    (today day : Int) : Option ShiftInstance :=
  let res := get_schedule_code cfg states today day
  if res.1 = 0 then none
  else if cfg.startTimes.length ≤ res.1 - 1 then none
  else
    let startDt := day * minutesPerDay + ((cfg.startTimes.getD (res.1 - 1) 0 : Nat) : Int)
    some { code := res.1, start := startDt,
           stop := startDt + 60 * (cfg.shiftDuration : Int),
           rotationIndex := res.2 }

/-- One candidate day of `WorkshiftSchedule.shift_covering`: the shift of the
day, if it exists and its half-open interval contains the moment. -/
def covering_on (cfg : WorkshiftConfig) (states : StatesSnapshot)
    (today moment dayq : Int) : Option ShiftInstance :=
  match get_shift cfg states today dayq with
  | some s => if s.start ≤ moment ∧ moment < s.stop then some s else none
  | none => none

/-- `WorkshiftSchedule.shift_covering` (`schedule.py`): try the local date of
the moment, then the immediately preceding date. -/
def shift_covering (cfg : WorkshiftConfig) (states : StatesSnapshot)
    (today moment : Int) : Option ShiftInstance :=
  let day := Int.fdiv moment minutesPerDay
  match covering_on cfg states today moment day with
  | some s => some s
  | none => covering_on cfg states today moment (day - 1)

/-- The `for offset in range(search_days)` loop of
`WorkshiftSchedule.next_shift_after`, with the current day and the remaining
iteration count explicit. -/
def next_shift_scan (cfg : WorkshiftConfig) (states : StatesSnapshot)
    (today moment : Int) : Int → Nat → Option ShiftInstance
  | _, 0 => none
  | day, n + 1 =>
    match get_shift cfg states today day with
    | some s =>
      if moment < s.stop then some s
      else next_shift_scan cfg states today moment (day + 1) n
    | none => next_shift_scan cfg states today moment (day + 1) n

/-- `WorkshiftSchedule.next_shift_after` (`schedule.py`): return the first
shift, scanning from the local date of the moment, that ends after it.
`searchDays` is the `search_days` parameter (default 90 at every call site). -/
def next_shift_after (cfg : WorkshiftConfig) (states : StatesSnapshot)
    (today moment : Int) (searchDays : Nat) : Option ShiftInstance :=
  next_shift_scan cfg states today moment (Int.fdiv moment minutesPerDay) searchDays

/-- One raw entry of the `manual_days_off` configuration list, after date
parsing: `start` is the parse result of `entry.get("start")` (`none` when the
key is missing or the string does not parse, both of which raise inside the
`try` block), and `stop` is `none` when the `"end"` key is absent (Python then
uses the start string), otherwise the parse result of the `"end"` value. -/
structure ManualDayOffEntry where
  start : Option Int
  stop : Option (Option Int)

/-- `WorkshiftSchedule._parse_manual_days_off` (`schedule.py`): entries that
fail to parse are skipped, and a range whose end precedes its start is
swapped. -/
def parse_manual_days_off : List ManualDayOffEntry → List (Int × Int)
  | [] => []
  | e :: rest =>
    let startRes := e.start
    let endRes :=
      match e.stop with
      | none => e.start
      | some v => v
    match startRes, endRes with
    | some sd, some ed =>
      (if ed < sd then (ed, sd) else (sd, ed)) :: parse_manual_days_off rest
    | _, _ => parse_manual_days_off rest

namespace ConstVariant

/-- `WorkshiftInfo` dataclass of `const.py`. -/
structure WorkshiftInfo where
  shiftIndex : Nat
  start : Int
  stop : Int
deriving DecidableEq

/-- `WorkshiftConfigData` of `const.py` (the fields used by its resolver). -/
structure WorkshiftConfigData where
  shiftHours : Nat
  shiftsPerDay : Nat
  shiftStarts : List Nat
  scheduleStartDate : Int
  scheduleString : List Char

/-- `WorkshiftSchedule._index_for_date` (`const.py`): Python `%` on integers is
`Int.emod`, so a negative offset wraps around (the code comments this
behaviour).  Defined only when the pattern is nonempty; the division-by-zero
case is handled by the caller's `Except`. -/
def index_for_date (cfg : WorkshiftConfigData) (targetDate : Int) : Int :=
  Int.emod (targetDate - cfg.scheduleStartDate) cfg.scheduleString.length

/-- `WorkshiftSchedule.get_shift_code` (`const.py`): no exception handler, so a
zero-length pattern propagates `ZeroDivisionError` and a non-digit character
propagates `ValueError`. -/
def get_shift_code (cfg : WorkshiftConfigData) (targetDate : Int) :
    Except String Nat :=
  if cfg.scheduleString.length = 0 then Except.error "ZeroDivisionError"
  else
    let idx := (index_for_date cfg targetDate).toNat
    match charDigit? (cfg.scheduleString.getD idx ' ') with
    | some v => Except.ok v
    | none => Except.error "ValueError"

/-- `WorkshiftSchedule.get_shift_info` (`const.py`): the range check is against
`shifts_per_day`, and `shift_starts[shift_code - 1]` raises `IndexError` when
the list is shorter. -/
def get_shift_info (cfg : WorkshiftConfigData) (targetDate : Int) :
    Except String (Option WorkshiftInfo) :=
  match get_shift_code cfg targetDate with
  | Except.error e => Except.error e
  | Except.ok code =>
    if code ≤ 0 then Except.ok none
    else if code > cfg.shiftsPerDay then Except.ok none
    else
      match cfg.shiftStarts.get? (code - 1) with
      | none => Except.error "IndexError"
      | some st =>
        let startDt := targetDate * minutesPerDay + (st : Int)
        Except.ok (some { shiftIndex := code, start := startDt,
                          stop := startDt + 60 * (cfg.shiftHours : Int) })

end ConstVariant

/-- The configuration of the repository's test suite (`tests/test_schedule.py`,
fixture `basic_config`), with the anchor date 2025-01-06 as day 0. -/
def cfgTest : WorkshiftConfig :=
  { shiftDuration := 8
    pattern := ['1', '2', '3', '0', '1', '2', '3', '0', '1', '2', '3', '0']
    startTimes := [360, 840, 1320]
    baseDate := 0
    manualDaysOff := []
    useWorkdaySensor := false
    workdayToday := none
    workdayTomorrow := none }

/-- A snapshot in which every entity is missing. -/
def noStates : StatesSnapshot := fun _ => none

/-- A workday-override configuration: pattern `"1"`, one start time 06:00,
override enabled with a today entity. -/
def cfgWd : WorkshiftConfig :=
  { shiftDuration := 8
    pattern := ['1']
    startTimes := [360]
    baseDate := 0
    manualDaysOff := []
    useWorkdaySensor := true
    workdayToday := some "binary_sensor.workday"
    workdayTomorrow := some "binary_sensor.workday" }

/-- A snapshot in which every entity reports the state string of the argument
given to the constructor. -/
def constStates (s : String) : StatesSnapshot := fun _ => some s

example : get_shift cfgTest noStates 0 0 = some ⟨1, 360, 840, some 0⟩ := rfl

example : get_shift cfgTest noStates 0 3 = none := rfl

example : get_shift cfgTest noStates 0 12 = some ⟨1, 17640, 18120, some 0⟩ := rfl

example : shift_covering cfgTest noStates 0 4440 = some ⟨3, 4200, 4680, some 2⟩ := rfl

example : next_shift_after cfgTest noStates 0 870 90 = some ⟨2, 2280, 2760, some 1⟩ := rfl

example : next_shift_after cfgTest noStates 0 600 90 = some ⟨1, 360, 840, some 0⟩ := rfl

example : get_shift cfgWd (constStates "off") 0 0 = none := rfl

example : get_shift cfgWd (constStates "off") 5 0 = some ⟨1, 360, 840, some 0⟩ := rfl

example : get_shift cfgWd (constStates "false") 0 0 = some ⟨1, 360, 840, some 0⟩ := rfl

example : ConstVariant.get_shift_info ⟨8, 2, [360, 840], 10, ['1', '2']⟩ 9 =
    Except.ok (some ⟨2, 13800, 14280⟩) := rfl

/-- The test configuration with an empty pattern string. -/
def cfgEmpty : WorkshiftConfig := { cfgTest with pattern := [] }

/-- The test configuration with a single malformed pattern character. -/
def cfgBadDigit : WorkshiftConfig := { cfgTest with pattern := ['x'] }

/-- The `const.py` variant configured with base day 10 and pattern `"12"`. -/
def cfgConstWrap : ConstVariant.WorkshiftConfigData :=
  { shiftHours := 8
    shiftsPerDay := 2
    shiftStarts := [360, 840]
    scheduleStartDate := 10
    scheduleString := ['1', '2'] }

/-- The `const.py` variant configured with the malformed pattern `"x"`. -/
def cfgConstBadDigit : ConstVariant.WorkshiftConfigData :=
  { shiftHours := 8
    shiftsPerDay := 2
    shiftStarts := [360, 840]
    scheduleStartDate := 0
    scheduleString := ['x'] }

/-- When the schedule code of a day is 0, `get_shift` returns `None`. -/
theorem get_shift_of_code_zero (cfg : WorkshiftConfig) (states : StatesSnapshot)
    (today day : Int) (h : (get_schedule_code cfg states today day).1 = 0) :
    get_shift cfg states today day = none := by
  simp [get_shift, h]

/-- Anatomy of a successful `get_shift`: the code comes from
`_get_schedule_code`, it is nonzero, the start-time index `code - 1` is in
range, and start/end are the combined local instants. -/
theorem get_shift_some_spec (cfg : WorkshiftConfig) (states : StatesSnapshot)
    (today day : Int) (o : ShiftInstance)
    (h : get_shift cfg states today day = some o) :
    (get_schedule_code cfg states today day).1 = o.code ∧
    o.code ≠ 0 ∧
    o.code - 1 < cfg.startTimes.length ∧
    o.start = day * minutesPerDay + ((cfg.startTimes.getD (o.code - 1) 0 : Nat) : Int) ∧
    o.stop = o.start + 60 * (cfg.shiftDuration : Int) ∧
    o.rotationIndex = (get_schedule_code cfg states today day).2 := by
  simp only [get_shift] at h
  by_cases h0 : (get_schedule_code cfg states today day).1 = 0
  · rw [if_pos h0] at h
    exact absurd h (by simp)
  · rw [if_neg h0] at h
    by_cases hlen : cfg.startTimes.length ≤ (get_schedule_code cfg states today day).1 - 1
    · rw [if_pos hlen] at h
      exact absurd h (by simp)
    · rw [if_neg hlen] at h
      obtain rfl : _ = o := Option.some.inj h
      refine ⟨rfl, h0, ?_, rfl, rfl, rfl⟩
      show (get_schedule_code cfg states today day).1 - 1 < cfg.startTimes.length
      omega

/-- `_get_schedule_code`, restated as a flat sequence of conditionals. -/
theorem get_schedule_code_eq_unfold (cfg : WorkshiftConfig)
    (states : StatesSnapshot) (today day : Int) :
    get_schedule_code cfg states today day =
      if is_manual_day_off cfg day then (0, none)
      else if cfg.pattern.isEmpty then (0, none)
      else if day - cfg.baseDate < 0 then (0, none)
      else if (cfg.pattern.getD ((day - cfg.baseDate).toNat % cfg.pattern.length)
          ' ').isDigit = false then (0, none)
      else if !workday_allowed cfg states today day then
        (0, some ((day - cfg.baseDate).toNat % cfg.pattern.length))
      else
        ((cfg.pattern.getD ((day - cfg.baseDate).toNat % cfg.pattern.length)
            ' ').toNat - 48,
         some ((day - cfg.baseDate).toNat % cfg.pattern.length)) := rfl

/-- Anatomy of a nonzero `_get_schedule_code` result: no manual day off, a
nonempty pattern, a nonnegative offset, a digit pattern character giving the
code, and a permitting workday check. -/
theorem get_schedule_code_nonzero_spec (cfg : WorkshiftConfig)
    (states : StatesSnapshot) (today day : Int)
    (h : (get_schedule_code cfg states today day).1 ≠ 0) :
    is_manual_day_off cfg day = false ∧
    cfg.pattern.isEmpty = false ∧
    ¬ day - cfg.baseDate < 0 ∧
    (cfg.pattern.getD ((day - cfg.baseDate).toNat % cfg.pattern.length) ' ').isDigit
      = true ∧
    (get_schedule_code cfg states today day).1
      = (cfg.pattern.getD ((day - cfg.baseDate).toNat % cfg.pattern.length) ' ').toNat
        - 48 ∧
    workday_allowed cfg states today day = true := by
  rw [get_schedule_code_eq_unfold] at h ⊢
  split_ifs at h ⊢ with hm hp hd hdig hw
  · exact absurd rfl h
  · exact absurd rfl h
  · exact absurd rfl h
  · exact absurd rfl h
  · exact absurd rfl h
  · exact ⟨by simpa using hm, by simpa using hp, hd, by simpa using hdig, rfl,
      by simpa using hw⟩

/-- When a workday sensor forbids the day, the schedule code is 0. -/
theorem get_schedule_code_not_allowed (cfg : WorkshiftConfig)
    (states : StatesSnapshot) (today day : Int)
    (h : workday_allowed cfg states today day = false) :
    (get_schedule_code cfg states today day).1 = 0 := by
  by_contra hne
  have hspec := get_schedule_code_nonzero_spec cfg states today day hne
  rw [h] at hspec
  exact absurd hspec.2.2.2.2.2 (by simp)

/-- With the workday override disabled, `_workday_allowed` is always true. -/
theorem workday_allowed_disabled (cfg : WorkshiftConfig) (states : StatesSnapshot)
    (today day : Int) (h : cfg.useWorkdaySensor = false) :
    workday_allowed cfg states today day = true := by
  simp [workday_allowed, h]

/-- Claim C2 (amended): `get_shift` is a pure function of the configuration,
the signal snapshot, the evaluation date `today` (the embedded wall-clock
read of `_workday_allowed`) and the resolved date; it is independent of the
wall clock whenever the workday override is disabled. -/
theorem get_shift_clock_independent_without_override (cfg : WorkshiftConfig)
    (states : StatesSnapshot) (t1 t2 day : Int)
    (h : cfg.useWorkdaySensor = false) :
    get_shift cfg states t1 day = get_shift cfg states t2 day := by
  have hc : get_schedule_code cfg states t1 day
      = get_schedule_code cfg states t2 day := by
    simp [get_schedule_code, workday_allowed, h]
  simp [get_shift, hc]

/-- Witness for C2 at the test configuration, with today-dates 0 and 99. -/
theorem get_shift_clock_independent_witness :
    cfgTest.useWorkdaySensor = false ∧
    get_shift cfgTest noStates 0 0 = get_shift cfgTest noStates 99 0 :=
  ⟨rfl, get_shift_clock_independent_without_override cfgTest noStates 0 99 0 rfl⟩

/-- Counterexample for C2 as stated: with the workday override enabled and the
entity reporting `"off"`, the result of resolving day 0 depends on the wall
clock (today = 0 versus today = 5). -/
theorem get_shift_clock_dependence_cex :
    get_shift cfgWd (constStates "off") 0 0 = none ∧
    get_shift cfgWd (constStates "off") 5 0 = some ⟨1, 360, 840, some 0⟩ ∧
    get_shift cfgWd (constStates "off") 0 0 ≠ get_shift cfgWd (constStates "off") 5 0 := by
  have h1 : get_shift cfgWd (constStates "off") 0 0 = none := rfl
  have h2 : get_shift cfgWd (constStates "off") 5 0 = some ⟨1, 360, 840, some 0⟩ := rfl
  refine ⟨h1, h2, ?_⟩
  rw [h1, h2]
  simp

/-- Claim C3 (amended): in the main resolver (`schedule.py`), a date strictly
before the anchor yields no shift. -/
theorem get_shift_pre_anchor_none (cfg : WorkshiftConfig) (states : StatesSnapshot)
    (today d : Int) (h : d < cfg.baseDate) :
    get_shift cfg states today d = none := by
  apply get_shift_of_code_zero
  have hd : d - cfg.baseDate < 0 := by omega
  by_cases hm : is_manual_day_off cfg d
  · simp [get_schedule_code, hm]
  by_cases hp : cfg.pattern.isEmpty
  · simp [get_schedule_code, hm, hp]
  · simp [get_schedule_code, hm, hp, hd]

/-- Witness for C3 (amended) at the test configuration on day -1. -/
theorem get_shift_pre_anchor_witness :
    (-1 : Int) < cfgTest.baseDate ∧ get_shift cfgTest noStates 0 (-1) = none :=
  ⟨by decide, get_shift_pre_anchor_none cfgTest noStates 0 (-1) (by decide)⟩

/-- Counterexample for C3 as stated: the `const.py` resolver wraps negative
offsets, so the pre-anchor day 9 (anchor 10) resolves to shift 2. -/
theorem pre_anchor_wraps_in_const_cex :
    (9 : Int) < cfgConstWrap.scheduleStartDate ∧
    ConstVariant.get_shift_info cfgConstWrap 9 =
      Except.ok (some ⟨2, 13800, 14280⟩) :=
  ⟨by decide, rfl⟩

/-- Claim C7: a resolved shift spans exactly `shift_duration` hours and ends
strictly after it starts (the configuration schema enforces a positive
duration). -/
theorem get_shift_duration_invariant (cfg : WorkshiftConfig)
    (states : StatesSnapshot) (today d : Int) (occ : ShiftInstance)
    (hdur : 0 < cfg.shiftDuration)
    (h : get_shift cfg states today d = some occ) :
    occ.stop - occ.start = 60 * (cfg.shiftDuration : Int) ∧ occ.start < occ.stop := by
  obtain ⟨-, -, -, -, hstop, -⟩ := get_shift_some_spec cfg states today d occ h
  constructor <;> omega

/-- Witness for C7 at the test configuration on day 0. -/
theorem get_shift_duration_witness :
    0 < cfgTest.shiftDuration ∧
    get_shift cfgTest noStates 0 0 = some ⟨1, 360, 840, some 0⟩ ∧
    ((⟨1, 360, 840, some 0⟩ : ShiftInstance).stop -
        (⟨1, 360, 840, some 0⟩ : ShiftInstance).start
      = 60 * (cfgTest.shiftDuration : Int) ∧
     (⟨1, 360, 840, some 0⟩ : ShiftInstance).start
      < (⟨1, 360, 840, some 0⟩ : ShiftInstance).stop) :=
  ⟨by decide, rfl,
   get_shift_duration_invariant cfgTest noStates 0 0 ⟨1, 360, 840, some 0⟩
     (by decide) rfl⟩

/-- Claim C9: an entry whose end date precedes its start date is swapped at
parse time, so every day inclusively between the two bounds is a manual day
off and resolves to no shift. -/
theorem manual_day_off_swapped_bounds (cfg : WorkshiftConfig)
    (states : StatesSnapshot) (today a b d : Int)
    (hba : b < a) (h1 : b ≤ d) (h2 : d ≤ a) :
    get_shift
      { cfg with manualDaysOff := parse_manual_days_off [⟨some a, some (some b)⟩] }
      states today d = none := by
  apply get_shift_of_code_zero
  have hp : parse_manual_days_off [⟨some a, some (some b)⟩] = [(b, a)] := by
    simp [parse_manual_days_off, hba]
  have hm : is_manual_day_off
      { cfg with manualDaysOff := parse_manual_days_off [⟨some a, some (some b)⟩] }
      d = true := by
    simp [is_manual_day_off, hp]
    omega
  simp [get_schedule_code, hm]

/-- Witness for C9: entry start 5, end 2 (reversed), day 3 resolves to none. -/
theorem manual_day_off_swapped_witness :
    (2 : Int) < 5 ∧ (2 : Int) ≤ 3 ∧ (3 : Int) ≤ 5 ∧
    get_shift
      { cfgTest with manualDaysOff := parse_manual_days_off [⟨some 5, some (some 2)⟩] }
      noStates 0 3 = none :=
  ⟨by decide, by decide, by decide,
   manual_day_off_swapped_bounds cfgTest noStates 0 5 2 3
     (by decide) (by decide) (by decide)⟩

/-- Claim C10: with an empty pattern the resolver returns code 0 and no shift
for every date; the empty-pattern guard precedes the modulo, which is never
evaluated. -/
theorem empty_pattern_resolves_none (cfg : WorkshiftConfig)
    (states : StatesSnapshot) (today d : Int) (h : cfg.pattern = []) :
    get_schedule_code cfg states today d = (0, none) ∧
    get_shift cfg states today d = none := by
  have hc : get_schedule_code cfg states today d = (0, none) := by
    by_cases hm : is_manual_day_off cfg d
    · simp [get_schedule_code, hm]
    · simp [get_schedule_code, hm, h]
  exact ⟨hc, get_shift_of_code_zero _ _ _ _ (by rw [hc])⟩

/-- Witness for C10 at the empty-pattern configuration on day 7. -/
theorem empty_pattern_witness :
    cfgEmpty.pattern = [] ∧
    (get_schedule_code cfgEmpty noStates 0 7 = (0, none) ∧
     get_shift cfgEmpty noStates 0 7 = none) :=
  ⟨rfl, empty_pattern_resolves_none cfgEmpty noStates 0 7 rfl⟩

/-- Claim C4 (amended): when the workday override applies to the resolved
date — the date equal to the evaluation "today", read through the today
entity, or the date equal to "tomorrow", read through the tomorrow entity —
only the state string `"off"` (case-insensitively) suppresses the shift; any
other state string and a missing entity leave the day a workday. -/
theorem workday_override_off_only (cfg : WorkshiftConfig) (states : StatesSnapshot)
    (today day : Int) (e st : String)
    (huse : cfg.useWorkdaySensor = true)
    (hent : (day = today ∧ cfg.workdayToday = some e) ∨
            (day = today + 1 ∧ cfg.workdayTomorrow = some e))
    (hne : e ≠ "") :
    ((states e = some st ∧ str_lower st = "off") →
      get_shift cfg states today day = none) ∧
    (states e = some st → str_lower st ≠ "off" →
      workday_allowed cfg states today day = true) ∧
    (states e = none → workday_allowed cfg states today day = true) := by
  rcases hent with ⟨hday, hent⟩ | ⟨hday, hent⟩
  · subst hday
    refine ⟨?_, ?_, ?_⟩
    · rintro ⟨hs, hl⟩
      apply get_shift_of_code_zero
      apply get_schedule_code_not_allowed
      simp [workday_allowed, huse, hent, hne, hs, hl]
    · intro hs hl
      simp [workday_allowed, huse, hent, hne, hs, hl]
    · intro hs
      simp [workday_allowed, huse, hent, hne, hs]
  · subst hday
    have hns : today + 1 ≠ today := by omega
    refine ⟨?_, ?_, ?_⟩
    · rintro ⟨hs, hl⟩
      apply get_shift_of_code_zero
      apply get_schedule_code_not_allowed
      simp [workday_allowed, huse, hent, hne, hs, hl, hns]
    · intro hs hl
      simp [workday_allowed, huse, hent, hne, hs, hl, hns]
    · intro hs
      simp [workday_allowed, huse, hent, hne, hs, hns]

/-- Witness for C4 (amended), exercising the tomorrow case: the state `"off"`
on the tomorrow entity forces no shift on day `today + 1`. -/
theorem workday_override_off_only_witness :
    cfgWd.useWorkdaySensor = true ∧
    (((1 : Int) = 0 ∧ cfgWd.workdayToday = some "binary_sensor.workday") ∨
     ((1 : Int) = 0 + 1 ∧ cfgWd.workdayTomorrow = some "binary_sensor.workday")) ∧
    "binary_sensor.workday" ≠ "" ∧
    ((constStates "off" "binary_sensor.workday" = some "off" ∧
        str_lower "off" = "off") →
      get_shift cfgWd (constStates "off") 0 1 = none) :=
  ⟨rfl, Or.inr ⟨by decide, rfl⟩, by decide,
   (workday_override_off_only cfgWd (constStates "off") 0 1
      "binary_sensor.workday" "off" rfl (Or.inr ⟨by decide, rfl⟩)
      (by decide)).1⟩

/-- Counterexample for C4 as stated: the claim calls `"false"` and `"0"`
non-workday states, but the resolver suppresses only `"off"`: both leave the
shift in place. -/
theorem workday_false_not_suppressed_cex :
    get_shift cfgWd (constStates "false") 0 0 = some ⟨1, 360, 840, some 0⟩ ∧
    get_shift cfgWd (constStates "0") 0 0 = some ⟨1, 360, 840, some 0⟩ :=
  ⟨rfl, rfl⟩

/-- Claim C5 (amended): the main resolver never raises — a malformed pattern
character or an out-of-range shift code degrade to no shift for the date; a
missing external signal entity, however, defaults to "workday", so the shift
is still produced rather than `None`.  (The `const.py` variant instead
propagates the parse exception; see the counterexample.) -/
theorem resolver_degrades_to_none (cfg : WorkshiftConfig)
    (states : StatesSnapshot) (today d : Int) :
    ((cfg.pattern.getD ((d - cfg.baseDate).toNat % cfg.pattern.length) ' ').isDigit
        = false →
      get_shift cfg states today d = none) ∧
    (cfg.startTimes.length < (get_schedule_code cfg states today d).1 →
      get_shift cfg states today d = none) ∧
    (states = (fun _ => none) → workday_allowed cfg states today d = true) := by
  refine ⟨?_, ?_, ?_⟩
  · intro hnd
    apply get_shift_of_code_zero
    by_contra hne
    have hspec := get_schedule_code_nonzero_spec cfg states today d hne
    rw [hnd] at hspec
    exact absurd hspec.2.2.2.1 (by simp)
  · intro hlen
    simp only [get_shift]
    by_cases h0 : (get_schedule_code cfg states today d).1 = 0
    · rw [if_pos h0]
    · rw [if_neg h0, if_pos (by omega)]
  · rintro rfl
    simp only [workday_allowed]
    split
    · rfl
    · split
      · rfl
      · split
        · rfl
        · rfl

/-- Witness for C5 (amended): the malformed pattern `"x"` yields no shift. -/
theorem resolver_degrades_witness :
    (cfgBadDigit.pattern.getD
        (((0 : Int) - cfgBadDigit.baseDate).toNat % cfgBadDigit.pattern.length)
        ' ').isDigit = false ∧
    get_shift cfgBadDigit noStates 0 0 = none :=
  ⟨by decide, (resolver_degrades_to_none cfgBadDigit noStates 0 0).1 (by decide)⟩

/-- Counterexample for C5 as stated: the `const.py` resolver propagates the
`ValueError` of a malformed pattern character instead of degrading, and in
the main resolver a missing external signal entity produces the shift rather
than `None`. -/
theorem resolver_exception_and_missing_signal_cex :
    ConstVariant.get_shift_code cfgConstBadDigit 0 = Except.error "ValueError" ∧
    get_shift cfgWd noStates 0 0 = some ⟨1, 360, 840, some 0⟩ :=
  ⟨rfl, rfl⟩

/-- In `shift_covering`, a candidate day yields a shift only when its
half-open interval contains the moment. -/
theorem covering_on_spec (cfg : WorkshiftConfig) (states : StatesSnapshot)
    (today moment dayq : Int) (o : ShiftInstance)
    (h : covering_on cfg states today moment dayq = some o) :
    o.start ≤ moment ∧ moment < o.stop ∧
    get_shift cfg states today dayq = some o := by
  simp only [covering_on] at h
  split at h
  · rename_i s hg
    split at h
    · rename_i hc
      cases h
      exact ⟨hc.1, hc.2, hg⟩
    · cases h
  · cases h

/-- Claim C6: a covering shift contains the moment in its half-open interval
and is the resolved shift of the moment's local date or of the immediately
preceding date. -/
theorem shift_covering_spec (cfg : WorkshiftConfig) (states : StatesSnapshot)
    (today moment : Int) (occ : ShiftInstance)
    (h : shift_covering cfg states today moment = some occ) :
    occ.start ≤ moment ∧ moment < occ.stop ∧
    (get_shift cfg states today (Int.fdiv moment minutesPerDay) = some occ ∨
     get_shift cfg states today (Int.fdiv moment minutesPerDay - 1) = some occ) := by
  simp only [shift_covering] at h
  split at h
  · rename_i s hg
    cases h
    obtain ⟨a, b, c⟩ := covering_on_spec cfg states today moment _ _ hg
    exact ⟨a, b, Or.inl c⟩
  · obtain ⟨a, b, c⟩ := covering_on_spec cfg states today moment _ _ h
    exact ⟨a, b, Or.inr c⟩

/-- Witness for C6: 02:00 on day 3 is covered by the overnight shift 3 of
day 2 (start 22:00, end 06:00 next day). -/
theorem shift_covering_witness :
    shift_covering cfgTest noStates 0 4440 = some ⟨3, 4200, 4680, some 2⟩ ∧
    ((⟨3, 4200, 4680, some 2⟩ : ShiftInstance).start ≤ 4440 ∧
     (4440 : Int) < (⟨3, 4200, 4680, some 2⟩ : ShiftInstance).stop ∧
     (get_shift cfgTest noStates 0 (Int.fdiv 4440 minutesPerDay) =
        some ⟨3, 4200, 4680, some 2⟩ ∨
      get_shift cfgTest noStates 0 (Int.fdiv 4440 minutesPerDay - 1) =
        some ⟨3, 4200, 4680, some 2⟩)) :=
  ⟨rfl, shift_covering_spec cfgTest noStates 0 4440 ⟨3, 4200, 4680, some 2⟩ rfl⟩

/-- Claim C8: resolved shifts one whole pattern length apart carry the same
shift code. -/
theorem get_shift_cyclic_periodicity (cfg : WorkshiftConfig)
    (states : StatesSnapshot) (today d : Int) (o1 o2 : ShiftInstance)
    (h1 : get_shift cfg states today d = some o1)
    (h2 : get_shift cfg states today (d + (cfg.pattern.length : Int)) = some o2) :
    o1.code = o2.code := by
  obtain ⟨hc1, hn1, -, -, -, -⟩ := get_shift_some_spec _ _ _ _ _ h1
  obtain ⟨hc2, hn2, -, -, -, -⟩ := get_shift_some_spec _ _ _ _ _ h2
  have hz1 : (get_schedule_code cfg states today d).1 ≠ 0 := by
    rw [hc1]; exact hn1
  have hz2 : (get_schedule_code cfg states today
      (d + (cfg.pattern.length : Int))).1 ≠ 0 := by
    rw [hc2]; exact hn2
  have s1 := get_schedule_code_nonzero_spec cfg states today d hz1
  have s2 := get_schedule_code_nonzero_spec cfg states today
    (d + (cfg.pattern.length : Int)) hz2
  have hd1 : ¬ d - cfg.baseDate < 0 := s1.2.2.1
  have hidx : (d + (cfg.pattern.length : Int) - cfg.baseDate).toNat
      % cfg.pattern.length
      = (d - cfg.baseDate).toNat % cfg.pattern.length := by
    have hadd : (d + (cfg.pattern.length : Int) - cfg.baseDate).toNat
        = (d - cfg.baseDate).toNat + cfg.pattern.length := by omega
    rw [hadd, Nat.add_mod_right]
  have e1 := s1.2.2.2.2.1
  have e2 := s2.2.2.2.2.1
  rw [hc1] at e1
  rw [hc2] at e2
  rw [hidx] at e2
  rw [e1, e2]

/-- Witness for C8 at the test configuration: day 0 and day 0 + 12 both carry
shift code 1. -/
theorem get_shift_cyclic_witness :
    get_shift cfgTest noStates 0 0 = some ⟨1, 360, 840, some 0⟩ ∧
    get_shift cfgTest noStates 0 (0 + (cfgTest.pattern.length : Int)) =
      some ⟨1, 17640, 18120, some 0⟩ ∧
    (⟨1, 360, 840, some 0⟩ : ShiftInstance).code
      = (⟨1, 17640, 18120, some 0⟩ : ShiftInstance).code :=
  ⟨rfl, rfl, get_shift_cyclic_periodicity cfgTest noStates 0 0 _ _ rfl rfl⟩

/-- A resolved shift starts within the local day it was resolved for,
provided every configured start time is before midnight (start times are
parsed from `"%H:%M"` strings, hence < 1440 minutes). -/
theorem get_shift_start_bounds (cfg : WorkshiftConfig) (states : StatesSnapshot)
    (today day : Int) (o : ShiftInstance)
    (hst : ∀ st ∈ cfg.startTimes, st < 1440)
    (h : get_shift cfg states today day = some o) :
    day * 1440 ≤ o.start ∧ o.start < day * 1440 + 1440 := by
  obtain ⟨-, -, hlt, hstart, -, -⟩ := get_shift_some_spec cfg states today day o h
  have hmem : cfg.startTimes.getD (o.code - 1) 0 ∈ cfg.startTimes := by
    rw [List.getD_eq_getElem cfg.startTimes 0 hlt]
    exact List.getElem_mem hlt
  have hb := hst _ hmem
  rw [hstart]
  simp only [minutesPerDay]
  omega

/-- If the `next_shift_after` scan returns a shift, it ends after the moment,
comes from a scanned day, and no earlier scanned day has a shift ending
after the moment. -/
theorem next_shift_scan_some_spec (cfg : WorkshiftConfig)
    (states : StatesSnapshot) (today moment : Int) :
    ∀ (n : Nat) (day : Int) (occ : ShiftInstance),
      next_shift_scan cfg states today moment day n = some occ →
      moment < occ.stop ∧
      ∃ k : Nat, k < n ∧
        get_shift cfg states today (day + (k : Int)) = some occ ∧
        ∀ j : Nat, j < k → ∀ s,
          get_shift cfg states today (day + (j : Int)) = some s →
          s.stop ≤ moment := by
  intro n
  induction n with
  | zero =>
    intro day occ h
    simp [next_shift_scan] at h
  | succ n ih =>
    intro day occ h
    simp only [next_shift_scan] at h
    split at h
    · rename_i s hg
      split at h
      · rename_i hlt
        cases h
        refine ⟨hlt, 0, by omega, by simpa using hg, ?_⟩
        intro j hj
        omega
      · rename_i hlt
        obtain ⟨hm, k, hk, hgk, hall⟩ := ih (day + 1) occ h
        refine ⟨hm, k + 1, by omega, ?_, ?_⟩
        · have harg : day + (((k + 1 : Nat) : Nat) : Int) = day + 1 + (k : Int) := by
            push_cast
            ring
          rw [harg]
          exact hgk
        · intro j hj s hs
          cases j with
          | zero =>
            rw [show day + ((0 : Nat) : Int) = day by simp] at hs
            rw [hg] at hs
            cases hs
            omega
          | succ j' =>
            have harg : day + (((j' + 1 : Nat) : Nat) : Int) = day + 1 + (j' : Int) := by
              push_cast
              ring
            rw [harg] at hs
            exact hall j' (by omega) s hs
    · rename_i hg
      obtain ⟨hm, k, hk, hgk, hall⟩ := ih (day + 1) occ h
      refine ⟨hm, k + 1, by omega, ?_, ?_⟩
      · have harg : day + (((k + 1 : Nat) : Nat) : Int) = day + 1 + (k : Int) := by
          push_cast
          ring
        rw [harg]
        exact hgk
      · intro j hj s hs
        cases j with
        | zero =>
          rw [show day + ((0 : Nat) : Int) = day by simp] at hs
          rw [hg] at hs
          cases hs
        | succ j' =>
          have harg : day + (((j' + 1 : Nat) : Nat) : Int) = day + 1 + (j' : Int) := by
            push_cast
            ring
          rw [harg] at hs
          exact hall j' (by omega) s hs

/-- If the `next_shift_after` scan returns nothing, no scanned day has a
shift ending after the moment. -/
theorem next_shift_scan_none_spec (cfg : WorkshiftConfig)
    (states : StatesSnapshot) (today moment : Int) :
    ∀ (n : Nat) (day : Int),
      next_shift_scan cfg states today moment day n = none →
      ∀ k : Nat, k < n → ∀ s,
        get_shift cfg states today (day + (k : Int)) = some s →
        s.stop ≤ moment := by
  intro n
  induction n with
  | zero =>
    intro day h k hk s hs
    omega
  | succ n ih =>
    intro day h k hk s hs
    simp only [next_shift_scan] at h
    split at h
    · rename_i s0 hg
      split at h
      · cases h
      · rename_i hlt
        cases k with
        | zero =>
          rw [show day + ((0 : Nat) : Int) = day by simp] at hs
          rw [hg] at hs
          cases hs
          omega
        | succ k' =>
          have harg : day + (((k' + 1 : Nat) : Nat) : Int) = day + 1 + (k' : Int) := by
            push_cast
            ring
          rw [harg] at hs
          exact ih (day + 1) h k' (by omega) s hs
    · rename_i hg
      cases k with
      | zero =>
        rw [show day + ((0 : Nat) : Int) = day by simp] at hs
        rw [hg] at hs
        cases hs
      | succ k' =>
        have harg : day + (((k' + 1 : Nat) : Nat) : Int) = day + 1 + (k' : Int) := by
          push_cast
          ring
        rw [harg] at hs
        exact ih (day + 1) h k' (by omega) s hs

/-- Claim C1 (amended): within the 90-day horizon scanned from the moment's
local date, `next_shift_after` returns the first shift whose END is strictly
after the moment — equivalently, the one with the least start among shifts
ending after the moment (its start need not be after the moment) — and
returns `none` exactly when no scanned day has such a shift. -/
theorem next_shift_after_spec (cfg : WorkshiftConfig) (states : StatesSnapshot)
    (today moment : Int)
    (hst : ∀ st ∈ cfg.startTimes, st < 1440) :
    (∀ occ, next_shift_after cfg states today moment 90 = some occ →
      moment < occ.stop ∧
      (∃ k : Nat, k < 90 ∧
        get_shift cfg states today (Int.fdiv moment minutesPerDay + (k : Int))
          = some occ) ∧
      (∀ d s, Int.fdiv moment minutesPerDay ≤ d →
        d < Int.fdiv moment minutesPerDay + 90 →
        get_shift cfg states today d = some s → moment < s.stop →
        occ.start ≤ s.start)) ∧
    (next_shift_after cfg states today moment 90 = none →
      ∀ d s, Int.fdiv moment minutesPerDay ≤ d →
        d < Int.fdiv moment minutesPerDay + 90 →
        get_shift cfg states today d = some s → s.stop ≤ moment) := by
  constructor
  · intro occ h
    simp only [next_shift_after] at h
    obtain ⟨hm, k, hk, hgk, hall⟩ :=
      next_shift_scan_some_spec cfg states today moment 90 _ occ h
    refine ⟨hm, ⟨k, hk, hgk⟩, ?_⟩
    intro d s hd1 hd2 hgs hlt
    have hj : d = Int.fdiv moment minutesPerDay
        + ((d - Int.fdiv moment minutesPerDay).toNat : Int) := by omega
    by_cases hcmp : (d - Int.fdiv moment minutesPerDay).toNat < k
    · exfalso
      have := hall _ hcmp s (by rw [← hj]; exact hgs)
      omega
    · by_cases heq : (d - Int.fdiv moment minutesPerDay).toNat = k
      · have hsame : get_shift cfg states today d = some occ := by
          rw [hj, heq]
          exact hgk
        rw [hsame] at hgs
        cases hgs
        omega
      · have hb1 := get_shift_start_bounds cfg states today
          (Int.fdiv moment minutesPerDay + (k : Int)) occ hst hgk
        have hb2 := get_shift_start_bounds cfg states today d s hst hgs
        omega
  · intro h d s hd1 hd2 hgs
    simp only [next_shift_after] at h
    have hj : d = Int.fdiv moment minutesPerDay
        + ((d - Int.fdiv moment minutesPerDay).toNat : Int) := by omega
    exact next_shift_scan_none_spec cfg states today moment 90 _ h
      ((d - Int.fdiv moment minutesPerDay).toNat) (by omega) s
      (by rw [← hj]; exact hgs)

/-- Witness for C1 (amended) at the test configuration, moment 10:00 of
day 0: the scan returns the ongoing shift 1. -/
theorem next_shift_after_witness :
    (∀ st ∈ cfgTest.startTimes, st < 1440) ∧
    ((600 : Int) < (⟨1, 360, 840, some 0⟩ : ShiftInstance).stop ∧
      (∃ k : Nat, k < 90 ∧
        get_shift cfgTest noStates 0 (Int.fdiv 600 minutesPerDay + (k : Int))
          = some ⟨1, 360, 840, some 0⟩) ∧
      (∀ d s, Int.fdiv 600 minutesPerDay ≤ d →
        d < Int.fdiv 600 minutesPerDay + 90 →
        get_shift cfgTest noStates 0 d = some s → (600 : Int) < s.stop →
        (⟨1, 360, 840, some 0⟩ : ShiftInstance).start ≤ s.start)) :=
  ⟨by decide,
   (next_shift_after_spec cfgTest noStates 0 600 (by decide)).1
     ⟨1, 360, 840, some 0⟩ rfl⟩

/-- Counterexample for C1 as stated: at minute 600 of day 0 the scan returns
the ongoing shift, whose start 360 is not strictly after 600 (the code keeps
any shift whose end is after the moment). -/
theorem next_shift_after_start_not_after_cex :
    next_shift_after cfgTest noStates 0 600 90 = some ⟨1, 360, 840, some 0⟩ ∧
    ¬ (600 : Int) < (⟨1, 360, 840, some 0⟩ : ShiftInstance).start :=
  ⟨rfl, by decide⟩

end WorkshiftSensor
